/-
Verification of the core measurement and fault-tolerance layer of the
ntp-exporter repository (Go), as a shallow embedding in Lean 4.

Modelling conventions, used consistently below:
  - Go `time.Duration` (int64 nanoseconds) is modelled as `ℤ` (nanoseconds).
  - Go `float64` arithmetic is modelled by exact rational arithmetic `ℚ`
    (the idealised real-number semantics of the floating-point code).
  - Go `float64 -> int64` conversion truncates toward zero; `ratTrunc` below.
  - `math.Sqrt` and `math.Exp` are abstracted as explicit function
    parameters (`sqrtFn`, `expFn`): every theorem holds for an arbitrary
    interpretation of them unless stated otherwise.
  - Go maps are modelled as association lists where insertion overwrites
    the previous binding of the same key (`insertAssoc` / `lookupAssoc`).
  - Fallible Go functions returning `(T, error)` are modelled with
    `Except String T` (or explicit pairs when both values are meaningful).
  - Concurrency is linearised: channel-based fan-out is modelled by a
    deterministic fold over the job list, with an explicit `delivered`
    predicate standing for results that survive cancellation races.
-/
import Mathlib

namespace NtpExporter

/-- Truncation of a rational toward zero, the semantics of Go conversion
from `float64` to `int64` (`time.Duration(x * float64(time.Second))`). -/
def ratTrunc (q : ℚ) : ℤ :=
  if 0 ≤ q then ⌊q⌋ else -⌊-q⌋

/-- Go `time.Duration.Seconds()`: nanoseconds to seconds. -/
def secondsOf (d : ℤ) : ℚ := (d : ℚ) / 1000000000

/-- Go `time.Duration(x * float64(time.Second))`: seconds to nanoseconds. -/
def durOfSeconds (q : ℚ) : ℤ := ratTrunc (q * 1000000000)

/-- Response represents an NTP query response with additional metadata
(src/unnamed/part_010, `type Response struct`).  `time.Time` values are
modelled as integer nanoseconds since epoch, the zero value being 0. -/
structure Response where
  Server : String
  Offset : ℤ
  RTT : ℤ
  Stratum : ℕ
  ReferenceTime : ℤ
  RootDelay : ℤ
  RootDispersion : ℤ
  RootDistance : ℤ
  Precision : ℤ
  LeapIndicator : ℕ
  Poll : ℤ
  ValidateError : Option String
  ReferenceID : ℕ
  Time : ℤ
  MinError : ℤ
  KissCode : String
deriving DecidableEq

/-- Statistics from multiple NTP samples (src/internal/ntp, `type Statistics
struct`).  The Go field `PacketLossRatio` is rendered as `PacketLoss`. -/
structure Statistics where
  MedianOffset : ℤ
  MeanOffset : ℤ
  StdDevOffset : ℤ
  Jitter : ℤ
  Asymmetry : ℤ
  SamplesCount : ℕ
  PacketLoss : ℚ
deriving DecidableEq

/-- Go `sort.Float64s` (ascending), via insertion sort. -/
def sortFloat64 (values : List ℚ) : List ℚ := List.insertionSort (· ≤ ·) values

/-- Source function `median`: sort ascending; average the two central
values for even length; 0 for the empty slice. -/
def median (values : List ℚ) : ℚ :=
  if values = [] then 0
  else
    let sorted := sortFloat64 values
    let n := sorted.length
    if n % 2 = 0 then (sorted.getD (n / 2 - 1) 0 + sorted.getD (n / 2) 0) / 2
    else sorted.getD (n / 2) 0

/-- Source function `mean`: arithmetic mean, 0 for the empty slice. -/
def mean (values : List ℚ) : ℚ :=
  if values = [] then 0 else values.sum / values.length

/-- Source function `stdDev`: sample standard deviation with N-1
denominator, 0 for at most one element.  `math.Sqrt` is the parameter. -/
def stdDev (sqrtFn : ℚ → ℚ) (values : List ℚ) : ℚ :=
  if values.length ≤ 1 then 0
  else
    let m := mean values
    let sumSquaredDiff := (values.map (fun v => (v - m) * (v - m))).sum
    sqrtFn (sumSquaredDiff / (values.length - 1 : ℕ))

/-- Source function `min` over a float slice (0 for empty). -/
def minF (values : List ℚ) : ℚ :=
  match values with
  | [] => 0
  | v :: rest => rest.foldl (fun acc x => if x < acc then x else acc) v

/-- Source function `max` over a float slice (0 for empty). -/
def maxF (values : List ℚ) : ℚ :=
  match values with
  | [] => 0
  | v :: rest => rest.foldl (fun acc x => if x > acc then x else acc) v

/-- Source function `calculatePacketLoss`: lost samples floored at zero,
divided by the requested total; 0 when the total is 0. -/
def calculatePacketLoss (received total : ℤ) : ℚ :=
  if total = 0 then 0
  else
    let lost := total - received
    let lost := if lost < 0 then 0 else lost
    (lost : ℚ) / (total : ℚ)

/-- Source function `CalculateStatistics` (statistics part of the ntp
package): empty input yields the zero struct with loss ratio 1; otherwise
median / mean / stddev / jitter / asymmetry over the per-response offsets
and RTTs in seconds, converted back to durations by truncation. -/
def CalculateStatistics (sqrtFn : ℚ → ℚ) (responses : List Response)
    (totalSamples : ℤ) : Statistics :=
  if responses = [] then
    { MedianOffset := 0, MeanOffset := 0, StdDevOffset := 0, Jitter := 0,
      Asymmetry := 0, SamplesCount := 0, PacketLoss := 1 }
  else
    let offsets := responses.map (fun r => secondsOf r.Offset)
    let rtts := responses.map (fun r => secondsOf r.RTT)
    { MedianOffset := durOfSeconds (median offsets)
      MeanOffset := durOfSeconds (mean offsets)
      StdDevOffset := durOfSeconds (stdDev sqrtFn offsets)
      Jitter := durOfSeconds (stdDev sqrtFn rtts)
      Asymmetry :=
        if 2 ≤ responses.length then durOfSeconds (maxF rtts - minF rtts) else 0
      SamplesCount := responses.length
      PacketLoss := calculatePacketLoss responses.length totalSamples }

lemma calculatePacketLoss_eq_max (received total : ℤ) :
    calculatePacketLoss received total =
      if total = 0 then 0 else max 0 ((total : ℚ) - received) / total := by
  unfold calculatePacketLoss
  by_cases h : total = 0
  · simp [h]
  · simp only [h, if_false]
    congr 1
    by_cases hl : total - received < 0
    · simp only [hl, if_true]
      rw [max_eq_left]
      · norm_num
      · have : (total : ℚ) - received < 0 := by exact_mod_cast hl
        linarith
    · simp only [hl, if_false]
      rw [max_eq_right]
      · push_cast
        ring
      · have : (0 : ℤ) ≤ total - received := by linarith
        have : (0 : ℚ) ≤ (total : ℚ) - received := by exact_mod_cast this
        linarith

lemma calculatePacketLoss_bounds (received total : ℤ) (hr : 0 ≤ received) :
    0 ≤ calculatePacketLoss received total ∧ calculatePacketLoss received total ≤ 1 := by
  rw [calculatePacketLoss_eq_max]
  by_cases h : total = 0
  · simp [h]
  · simp only [h, if_false]
    rcases lt_trichotomy total 0 with hneg | hzero | hpos
    · have hts : (total : ℚ) - received < 0 := by
        have h1 : (total : ℚ) < 0 := by exact_mod_cast hneg
        have h2 : (0 : ℚ) ≤ (received : ℚ) := by exact_mod_cast hr
        linarith
      rw [max_eq_left (le_of_lt hts)]
      norm_num
    · exact absurd hzero h
    · have ht : (0 : ℚ) < (total : ℚ) := by exact_mod_cast hpos
      constructor
      · exact div_nonneg (le_max_left 0 _) (le_of_lt ht)
      · apply div_le_one_of_le₀ _ (le_of_lt ht)
        apply max_le (le_of_lt ht)
        have h2 : (0 : ℚ) ≤ (received : ℚ) := by exact_mod_cast hr
        linarith

/-- C1: for every list of responses and every requested sample count,
`CalculateStatistics` returns a packet loss ratio equal to
`max(0, requested - received) / requested` (0 when `requested = 0`); an
empty response list yields the all-zero statistics with `SamplesCount = 0`
and loss ratio 1; consequently the loss ratio always lies in `[0, 1]`. -/
theorem C1_calculateStatistics_packet_loss (sqrtFn : ℚ → ℚ)
    (responses : List Response) (totalSamples : ℤ) :
    (responses ≠ [] →
      (CalculateStatistics sqrtFn responses totalSamples).PacketLoss =
        if totalSamples = 0 then 0
        else max 0 ((totalSamples : ℚ) - responses.length) / totalSamples) ∧
    (responses = [] →
      CalculateStatistics sqrtFn responses totalSamples =
        { MedianOffset := 0, MeanOffset := 0, StdDevOffset := 0, Jitter := 0,
          Asymmetry := 0, SamplesCount := 0, PacketLoss := 1 }) ∧
    0 ≤ (CalculateStatistics sqrtFn responses totalSamples).PacketLoss ∧
    (CalculateStatistics sqrtFn responses totalSamples).PacketLoss ≤ 1 := by
  by_cases h : responses = []
  · refine ⟨fun hne => absurd h hne, fun _ => by simp [CalculateStatistics, h], ?_, ?_⟩
    · simp [CalculateStatistics, h]
    · simp [CalculateStatistics, h]
  · have hloss : (CalculateStatistics sqrtFn responses totalSamples).PacketLoss =
        calculatePacketLoss responses.length totalSamples := by
      simp [CalculateStatistics, h]
    refine ⟨fun _ => ?_, fun he => absurd he h, ?_, ?_⟩
    · rw [hloss, calculatePacketLoss_eq_max]
      norm_cast
    · rw [hloss]
      exact (calculatePacketLoss_bounds _ _ (Int.ofNat_nonneg _)).1
    · rw [hloss]
      exact (calculatePacketLoss_bounds _ _ (Int.ofNat_nonneg _)).2

/-- Concrete response used in witnesses: offset 3.2 ms, rtt 40 ms. -/
def sampleResponse : Response :=
  { Server := "10.0.0.1", Offset := 3200000, RTT := 40000000, Stratum := 2,
    ReferenceTime := 1700000000000000000, RootDelay := 8000000,
    RootDispersion := 4000000, RootDistance := 8000000, Precision := 1000,
    LeapIndicator := 0, Poll := 64000000000, ValidateError := none,
    ReferenceID := 0, Time := 1700000000000000000, MinError := 0,
    KissCode := "" }

/-- Witness for C1 at a concrete input: one response out of four requested
gives loss 3/4, and the empty list gives loss 1. -/
theorem C1_calculateStatistics_packet_loss_witness :
    (CalculateStatistics (fun q => q) [sampleResponse] 4).PacketLoss = 3 / 4 ∧
    (CalculateStatistics (fun q => q) [] 4).PacketLoss = 1 := by
  have h1 := C1_calculateStatistics_packet_loss (fun q => q) [sampleResponse] 4
  have h2 := C1_calculateStatistics_packet_loss (fun q => q) [] 4
  constructor
  · rw [h1.1 (by simp)]
    norm_num
  · rw [h2.2.1 rfl]

/-- Association-list insertion with Go map semantics: a later insertion of
the same key overwrites the earlier binding. -/
def insertAssoc {α : Type} (m : List (String × α)) (k : String) (v : α) :
    List (String × α) :=
  match m with
  | [] => [(k, v)]
  | (k0, v0) :: rest =>
    if k0 = k then (k, v) :: rest else (k0, v0) :: insertAssoc rest k v

/-- Association-list lookup. -/
def lookupAssoc {α : Type} (m : List (String × α)) (k : String) : Option α :=
  match m with
  | [] => none
  | (k0, v0) :: rest => if k0 = k then some v0 else lookupAssoc rest k

lemma lookupAssoc_insert_self {α : Type} (m : List (String × α)) (k : String) (v : α) :
    lookupAssoc (insertAssoc m k v) k = some v := by
  induction m with
  | nil => simp [insertAssoc, lookupAssoc]
  | cons p rest ih =>
    obtain ⟨k0, v0⟩ := p
    by_cases h : k0 = k
    · simp [insertAssoc, lookupAssoc, h]
    · simp [insertAssoc, lookupAssoc, h, ih]

lemma lookupAssoc_insert_ne {α : Type} (m : List (String × α)) (k k0 : String)
    (v : α) (h : k0 ≠ k) :
    lookupAssoc (insertAssoc m k0 v) k = lookupAssoc m k := by
  induction m with
  | nil => simp [insertAssoc, lookupAssoc, h]
  | cons p rest ih =>
    obtain ⟨k1, v1⟩ := p
    by_cases h1 : k1 = k0
    · subst h1
      simp [insertAssoc, lookupAssoc, h]
    · by_cases h2 : k1 = k
      · simp [insertAssoc, lookupAssoc, h1, h2, Ne.symm h]
      · simp [insertAssoc, lookupAssoc, h1, h2, ih]

lemma lookupAssoc_foldl_not_mem {α : Type} (f : String → α) (l : List String)
    (m0 : List (String × α)) (s : String) (h : s ∉ l) :
    lookupAssoc (l.foldl (fun m x => insertAssoc m x (f x)) m0) s =
      lookupAssoc m0 s := by
  induction l generalizing m0 with
  | nil => rfl
  | cons a rest ih =>
    have ha : a ≠ s := fun hc => h (hc ▸ List.mem_cons_self a rest)
    have hrest : s ∉ rest := fun hc => h (List.mem_cons_of_mem a hc)
    simp only [List.foldl_cons]
    rw [ih _ hrest, lookupAssoc_insert_ne _ _ _ _ ha]

lemma lookupAssoc_foldl_mem {α : Type} (f : String → α) (l : List String)
    (m0 : List (String × α)) (s : String) (h : s ∈ l) :
    lookupAssoc (l.foldl (fun m x => insertAssoc m x (f x)) m0) s = some (f s) := by
  induction l generalizing m0 with
  | nil => exact absurd h (List.not_mem_nil s)
  | cons a rest ih =>
    simp only [List.foldl_cons]
    by_cases hr : s ∈ rest
    · exact ih _ hr
    · have ha : s = a := by
        rcases List.mem_cons.mp h with h1 | h1
        · exact h1
        · exact absurd h1 hr
      subst ha
      rw [lookupAssoc_foldl_not_mem _ _ _ _ hr, lookupAssoc_insert_self]

lemma lookupAssoc_map {α β : Type} (g : α → β) (m : List (String × α)) (s : String) :
    lookupAssoc (m.map (fun p => (p.1, g p.2))) s = (lookupAssoc m s).map g := by
  induction m with
  | nil => rfl
  | cons p rest ih =>
    obtain ⟨k0, v0⟩ := p
    by_cases h : k0 = s
    · simp [lookupAssoc, h]
    · simp [lookupAssoc, h, ih]

/-- JobResult contains the result of a worker-pool job execution
(src/internal/ntp/workerpool.go).  Wall-clock duration is not modelled. -/
structure JobResult where
  Server : String
  Responses : List Response
  Error : Option String
deriving DecidableEq

/-- Error kinds returned by `WorkerPool.Execute`. -/
inductive WPError
  | noServers
  | alreadyRunning
  | cancelled
  | noResultsCollected
deriving DecidableEq

/-- Source method `processJob`: run `QueryMultiple` for one server and wrap
the outcome.  The querier is modelled as a function from server and sample
count to the pair (successful responses, optional error). -/
def processJob (querier : String → ℤ → List Response × Option String)
    (samples : ℤ) (s : String) : JobResult :=
  { Server := s, Responses := (querier s samples).1, Error := (querier s samples).2 }

/-- Source method `WorkerPool.Execute` (src/internal/ntp/workerpool.go,
lines 48-118), linearised: an empty server list fails with `noServers`; a
re-entrant call fails with `alreadyRunning`; each delivered job result is
inserted into the result map keyed by server; an empty collected map fails
with `noResultsCollected`.  The `delivered` predicate stands for results
that survive the cancellation race in the channel fan-in. -/
def Execute (running : Bool) (querier : String → ℤ → List Response × Option String)
    (delivered : String → Bool) (servers : List String) (samples : ℤ) :
    Except WPError (List (String × JobResult)) :=
  if servers = [] then .error .noServers
  else if running then .error .alreadyRunning
  else
    let results := (servers.filter (fun s => delivered s)).foldl
      (fun m s => insertAssoc m s (processJob querier samples s)) []
    if results = [] then .error .noResultsCollected
    else .ok results

/-- Statistics assigned by `QueryAll` to a server whose job carried an
error: the Go literal `&Statistics{SamplesCount: 0}` with every other
field at its zero value (in particular the loss ratio is 0). -/
def failedJobStatistics : Statistics :=
  { MedianOffset := 0, MeanOffset := 0, StdDevOffset := 0, Jitter := 0,
    Asymmetry := 0, SamplesCount := 0, PacketLoss := 0 }

/-- Per-server statistics step of `QueryAll`: a job result with an error
yields `failedJobStatistics`, otherwise `CalculateStatistics` over its
responses with the requested sample count. -/
def statisticsForJob (sqrtFn : ℚ → ℚ) (samples : ℤ) (jr : JobResult) : Statistics :=
  match jr.Error with
  | some _ => failedJobStatistics
  | none => CalculateStatistics sqrtFn jr.Responses samples

/-- Source method `WorkerPool.QueryAll` (src/internal/ntp/workerpool.go,
lines 159-180): `Execute`, then per-server statistics; a job that finished
with an error is mapped to `failedJobStatistics`. -/
def QueryAll (sqrtFn : ℚ → ℚ) (running : Bool)
    (querier : String → ℤ → List Response × Option String)
    (delivered : String → Bool) (servers : List String) (samples : ℤ) :
    Except WPError (List (String × Statistics)) :=
  match Execute running querier delivered servers samples with
  | .error e => .error e
  | .ok results =>
    .ok (results.map (fun p => (p.1, statisticsForJob sqrtFn samples p.2)))

/-- Counterexample to C2: a server whose job finished with an error is
mapped to the zero-valued statistics, whose packet loss ratio is 0, not
1.0 as the claim states. -/
theorem C2_queryAll_failed_server_counterexample :
    QueryAll (fun q => q) false (fun _ _ => ([], some "failure")) (fun _ => true)
        ["bad"] 10 = Except.ok [("bad", failedJobStatistics)] ∧
    failedJobStatistics.SamplesCount = 0 ∧
    ¬ failedJobStatistics.PacketLoss = 1 := by
  refine ⟨rfl, rfl, ?_⟩
  norm_num [failedJobStatistics]

/-- C2 amended: a server whose job finished with an error is mapped to the
Go zero-value statistics: `SamplesCount = 0` and every other field zero,
in particular `PacketLoss = 0` (not `1.0`). -/
theorem C2_queryAll_failed_server (sqrtFn : ℚ → ℚ)
    (querier : String → ℤ → List Response × Option String)
    (delivered : String → Bool) (servers : List String) (samples : ℤ)
    (s : String) (e : String) (hs : s ∈ servers) (hd : delivered s = true)
    (herr : (querier s samples).2 = some e) :
    ∃ m, QueryAll sqrtFn false querier delivered servers samples = Except.ok m ∧
      lookupAssoc m s = some failedJobStatistics := by
  have hne : servers ≠ [] := by
    intro hc
    rw [hc] at hs
    exact absurd hs (List.not_mem_nil s)
  have hmem : s ∈ servers.filter (fun x => delivered x) :=
    List.mem_filter.mpr ⟨hs, hd⟩
  have hlook :
      lookupAssoc ((servers.filter (fun x => delivered x)).foldl
        (fun m x => insertAssoc m x (processJob querier samples x)) []) s =
      some (processJob querier samples s) :=
    lookupAssoc_foldl_mem (processJob querier samples) _ [] s hmem
  have hres : (servers.filter (fun x => delivered x)).foldl
      (fun m x => insertAssoc m x (processJob querier samples x)) [] ≠ [] := by
    intro hc
    rw [hc] at hlook
    exact Option.noConfusion hlook
  have hexec : Execute false querier delivered servers samples =
      Except.ok ((servers.filter (fun x => delivered x)).foldl
        (fun m x => insertAssoc m x (processJob querier samples x)) []) := by
    simp [Execute, hne, hres]
  refine ⟨_, by rw [QueryAll, hexec], ?_⟩
  rw [lookupAssoc_map (statisticsForJob sqrtFn samples), hlook]
  simp [statisticsForJob, processJob, herr]

/-- Witness for the amended C2 at a concrete input. -/
theorem C2_queryAll_failed_server_witness :
    QueryAll (fun q => q) false (fun _ _ => ([], some "boom")) (fun _ => true)
        ["good", "bad"] 10 =
      Except.ok [("good", failedJobStatistics), ("bad", failedJobStatistics)] ∧
    lookupAssoc [("good", failedJobStatistics), ("bad", failedJobStatistics)]
        "bad" = some failedJobStatistics := by
  obtain ⟨m, hm, hl⟩ := C2_queryAll_failed_server (fun q => q)
    (fun _ _ => ([], some "boom")) (fun _ => true) ["good", "bad"] 10 "bad"
    "boom" (by simp) rfl rfl
  have h2 : QueryAll (fun q => q) false (fun _ _ => ([], some "boom"))
      (fun _ => true) ["good", "bad"] 10 =
      Except.ok [("good", failedJobStatistics), ("bad", failedJobStatistics)] :=
    rfl
  refine ⟨h2, ?_⟩
  have hmeq := Except.ok.inj (hm.symm.trans h2)
  rw [hmeq] at hl
  exact hl

/-- C10: for every non-empty server list, `Execute` either fails or
returns a non-empty result map; in particular when zero job results are
collected (all results lost to cancellation), it fails with the
`noResultsCollected` error. -/
theorem C10_execute_nonempty_or_error (running : Bool)
    (querier : String → ℤ → List Response × Option String)
    (delivered : String → Bool) (servers : List String) (samples : ℤ)
    (hne : servers ≠ []) :
    ((∃ e, Execute running querier delivered servers samples = Except.error e) ∨
     (∃ m, Execute running querier delivered servers samples = Except.ok m ∧
       m ≠ [])) ∧
    (running = false → servers.filter (fun s => delivered s) = [] →
      Execute running querier delivered servers samples =
        Except.error WPError.noResultsCollected) := by
  constructor
  · by_cases hr : running
    · exact Or.inl ⟨WPError.alreadyRunning, by simp [Execute, hne, hr]⟩
    · by_cases hres : (servers.filter (fun s => delivered s)).foldl
          (fun m s => insertAssoc m s (processJob querier samples s)) [] = []
      · exact Or.inl ⟨WPError.noResultsCollected, by simp [Execute, hne, hr, hres]⟩
      · refine Or.inr ⟨_, ?_, hres⟩
        simp [Execute, hne, hr, hres]
  · intro hr hf
    simp [Execute, hne, hr, hf]

/-- Witness for C10: a single server whose result is never delivered
yields the `noResultsCollected` error. -/
theorem C10_execute_nonempty_or_error_witness :
    Execute false (fun _ _ => ([], none)) (fun _ => false) ["a"] 3 =
      Except.error WPError.noResultsCollected :=
  (C10_execute_nonempty_or_error false (fun _ _ => ([], none)) (fun _ => false)
    ["a"] 3 (by simp)).2 rfl rfl

/-- Source function `mathutil.AbsDuration`. -/
def AbsDuration (d : ℤ) : ℤ := if d < 0 then -d else d

/-- Source method `Response.IsKissOfDeath` (src/unnamed/part_010): true
exactly when the kiss code is non-empty; the stratum is not consulted. -/
def Response.IsKissOfDeath (r : Response) : Bool := r.KissCode != ""

/-- Source method `Response.IsValid`: true when wire validation recorded
no error. -/
def Response.IsValid (r : Response) : Bool := r.ValidateError.isNone

/-- Validator for NTP responses (src/internal/ntp/validator.go). -/
structure Validator where
  maxClockSkew : ℤ
  minStratum : ℕ
  maxStratum : ℕ
  validateRefID : Bool
  checkKissOfDeath : Bool

/-- Source constructor `NewValidator`: 1 h skew bound, stratum range 1-15. -/
def NewValidator : Validator :=
  { maxClockSkew := 3600000000000, minStratum := 1, maxStratum := 15,
    validateRefID := true, checkKissOfDeath := true }

/-- ValidationResult of one response (src/internal/ntp/validator.go). -/
structure ValidationResult where
  Valid : Bool
  Errors : List String
  Warnings : List String
  TrustScore : ℚ
deriving DecidableEq

/-- Initial ValidationResult of `Validator.Validate`: valid, no tags,
trust score 1. -/
def validationStart : ValidationResult :=
  { Valid := true, Errors := [], Warnings := [], TrustScore := 1 }

/-- Validate step: stratum below minimum (error, penalty 0.3). -/
def checkStratumLow (v : Validator) (resp : Response) (r : ValidationResult) :
    ValidationResult :=
  if resp.Stratum < v.minStratum then
    { r with
      Errors := r.Errors ++
        ["stratum " ++ toString resp.Stratum ++ " below minimum " ++
          toString v.minStratum],
      Valid := false, TrustScore := r.TrustScore - 3 / 10 }
  else r

/-- Validate step: stratum above maximum (error, penalty 0.3). -/
def checkStratumHigh (v : Validator) (resp : Response) (r : ValidationResult) :
    ValidationResult :=
  if resp.Stratum > v.maxStratum then
    { r with
      Errors := r.Errors ++
        ["stratum " ++ toString resp.Stratum ++ " above maximum " ++
          toString v.maxStratum],
      Valid := false, TrustScore := r.TrustScore - 3 / 10 }
  else r

/-- Validate step: Kiss-of-Death (error, penalty 0.5). -/
def checkKoD (v : Validator) (resp : Response) (r : ValidationResult) :
    ValidationResult :=
  if v.checkKissOfDeath ∧ resp.IsKissOfDeath then
    { r with
      Errors := r.Errors ++ ["Kiss-of-Death received: " ++ resp.KissCode],
      Valid := false, TrustScore := r.TrustScore - 5 / 10 }
  else r

/-- Validate step: clock offset beyond the skew bound, strictly (warning,
penalty 0.2).  Go duration formatting is rendered as the nanosecond
count. -/
def checkClockSkew (v : Validator) (resp : Response) (r : ValidationResult) :
    ValidationResult :=
  if AbsDuration resp.Offset > v.maxClockSkew then
    { r with
      Warnings := r.Warnings ++ ["large clock offset: " ++ toString resp.Offset],
      TrustScore := r.TrustScore - 2 / 10 }
  else r

/-- Validate step: RTT above 10 s (warning, penalty 0.1). -/
def checkHighRTT (resp : Response) (r : ValidationResult) : ValidationResult :=
  if resp.RTT > 10000000000 then
    { r with
      Warnings := r.Warnings ++ ["high RTT: " ++ toString resp.RTT],
      TrustScore := r.TrustScore - 1 / 10 }
  else r

/-- Validate step: negative RTT (error, penalty 0.3). -/
def checkNegRTT (resp : Response) (r : ValidationResult) : ValidationResult :=
  if resp.RTT < 0 then
    { r with
      Errors := r.Errors ++ ["negative RTT"],
      Valid := false, TrustScore := r.TrustScore - 3 / 10 }
  else r

/-- Validate step: leap indicator 3 (warning, penalty 0.2). -/
def checkLeap (resp : Response) (r : ValidationResult) : ValidationResult :=
  if resp.LeapIndicator = 3 then
    { r with
      Warnings := r.Warnings ++ ["clock not synchronized (leap indicator = 3)"],
      TrustScore := r.TrustScore - 2 / 10 }
  else r

/-- Validate step: negative root delay (error, penalty 0.2). -/
def checkNegRootDelay (resp : Response) (r : ValidationResult) :
    ValidationResult :=
  if resp.RootDelay < 0 then
    { r with
      Errors := r.Errors ++ ["negative root delay"],
      Valid := false, TrustScore := r.TrustScore - 2 / 10 }
  else r

/-- Validate step: negative root dispersion (error, penalty 0.2). -/
def checkNegRootDispersion (resp : Response) (r : ValidationResult) :
    ValidationResult :=
  if resp.RootDispersion < 0 then
    { r with
      Errors := r.Errors ++ ["negative root dispersion"],
      Valid := false, TrustScore := r.TrustScore - 2 / 10 }
  else r

/-- Validate step: zero reference timestamp (warning, penalty 0.1). -/
def checkZeroRefTime (resp : Response) (r : ValidationResult) : ValidationResult :=
  if resp.ReferenceTime = 0 then
    { r with
      Warnings := r.Warnings ++ ["zero reference time"],
      TrustScore := r.TrustScore - 1 / 10 }
  else r

/-- Final clamp of the trust score to [0, 1]. -/
def clampTrustScore (r : ValidationResult) : ValidationResult :=
  let r := if r.TrustScore < 0 then { r with TrustScore := 0 } else r
  if r.TrustScore > 1 then { r with TrustScore := 1 } else r

/-- Source method `Validator.Validate` (src/internal/ntp/validator.go,
lines 55-135): the checks in source order, then the clamp. -/
def Validate (v : Validator) (resp : Response) : ValidationResult :=
  clampTrustScore
    (checkZeroRefTime resp
      (checkNegRootDispersion resp
        (checkNegRootDelay resp
          (checkLeap resp
            (checkNegRTT resp
              (checkHighRTT resp
                (checkClockSkew v resp
                  (checkKoD v resp
                    (checkStratumHigh v resp
                      (checkStratumLow v resp validationStart))))))))))

lemma checkClockSkew_id (v : Validator) (resp : Response) (r : ValidationResult)
    (hc : ¬ AbsDuration resp.Offset > v.maxClockSkew) :
    checkClockSkew v resp r = r := if_neg hc

/-- Source method `Validator.GetSuspicionReason` (src/internal/ntp/
validator.go, lines 138-159): first matching tag in source order.  The
stratum-0 check comes first and does not consult the kiss code. -/
def GetSuspicionReason (v : Validator) (resp : Response) : String :=
  if resp.Stratum = 0 then "invalid_stratum"
  else if resp.Stratum > v.maxStratum then "stratum_too_high"
  else if resp.IsKissOfDeath then "kod_received"
  else if AbsDuration resp.Offset > v.maxClockSkew then "time_mismatch"
  else if resp.RTT > 10000000000 then "high_rtt"
  else if ¬ resp.IsValid then "validation_failed"
  else "unknown"

/-- Response with stratum 0 carrying the RATE kiss code. -/
def kissResponse : Response :=
  { Server := "kod.example", Offset := 0, RTT := 40000000, Stratum := 0,
    ReferenceTime := 1700000000000000000, RootDelay := 0, RootDispersion := 0,
    RootDistance := 0, Precision := 0, LeapIndicator := 0, Poll := 0,
    ValidateError := none, ReferenceID := 0, Time := 0, MinError := 0,
    KissCode := "RATE" }

/-- Counterexample to C4: a response with stratum 0 and a non-empty kiss
code yields the tag invalid_stratum, not kod_received as the claim
states: the stratum-0 check fires first and ignores the kiss code. -/
theorem C4_getSuspicionReason_counterexample :
    GetSuspicionReason NewValidator kissResponse = "invalid_stratum" ∧
    ¬ GetSuspicionReason NewValidator kissResponse = "kod_received" := by
  refine ⟨rfl, ?_⟩
  intro h
  exact absurd (rfl.symm.trans h) (by decide)

/-- Ordered suspicion tags as amended: invalid_stratum fires for every
stratum-0 response, whether or not a kiss code is present; the remaining
tags follow in the claimed order. -/
def suspicionReasonSpec (resp : Response) : String :=
  if resp.Stratum = 0 then "invalid_stratum"
  else if 15 < resp.Stratum then "stratum_too_high"
  else if resp.KissCode ≠ "" then "kod_received"
  else if 3600000000000 < AbsDuration resp.Offset then "time_mismatch"
  else if 10000000000 < resp.RTT then "high_rtt"
  else if (resp.ValidateError).isSome then "validation_failed"
  else "unknown"

/-- C4 amended: `GetSuspicionReason` returns the first matching tag of the
ordered list in which invalid_stratum covers every stratum-0 response
(kiss code not consulted), then stratum_too_high, kod_received,
time_mismatch, high_rtt, validation_failed, unknown. -/
theorem C4_getSuspicionReason_order (resp : Response) :
    GetSuspicionReason NewValidator resp = suspicionReasonSpec resp := by
  unfold GetSuspicionReason suspicionReasonSpec NewValidator
  simp only [Response.IsKissOfDeath, Response.IsValid, gt_iff_lt,
    bne_iff_ne, ne_eq, Option.isNone_iff_eq_none, Bool.not_eq_true,
    decide_eq_true_eq]
  by_cases h0 : resp.Stratum = 0
  · simp [h0]
  · simp only [h0, if_false]
    by_cases h1 : 15 < resp.Stratum
    · simp [h1]
    · simp only [h1, if_false]
      by_cases h2 : resp.KissCode = ""
      · simp only [h2, if_false]
        by_cases h3 : 3600000000000 < AbsDuration resp.Offset
        · simp [h3]
        · simp only [h3, if_false]
          by_cases h4 : 10000000000 < resp.RTT
          · simp [h4]
          · simp only [h4, if_false]
            cases hv : resp.ValidateError <;> simp [hv]
      · simp [h2]

/-- Response whose clock offset is exactly one hour and whose other
fields trigger no check. -/
def oneHourResponse : Response :=
  { Server := "skew.example", Offset := 3600000000000, RTT := 40000000,
    Stratum := 2, ReferenceTime := 1700000000000000000, RootDelay := 8000000,
    RootDispersion := 4000000, RootDistance := 8000000, Precision := 0,
    LeapIndicator := 0, Poll := 0, ValidateError := none, ReferenceID := 0,
    Time := 0, MinError := 0, KissCode := "" }

/-- Counterexample to C9: at an offset of exactly one hour the validator
emits no warning at all and applies no penalty (the skew check is
strict), contradicting the claimed warning with penalty 0.2. -/
theorem C9_validate_one_hour_counterexample :
    (Validate NewValidator oneHourResponse).Warnings = [] ∧
    (Validate NewValidator oneHourResponse).TrustScore = 1 ∧
    (Validate NewValidator oneHourResponse).Valid = true := by
  refine ⟨rfl, ?_, rfl⟩
  rfl

/-- C9 amended: a response whose absolute offset is exactly one hour
validates exactly as the same response with zero offset: the
large-clock-offset warning requires a strictly greater offset, so no
warning or penalty is applied and validity is unchanged. -/
theorem C9_validate_one_hour (resp : Response)
    (h : AbsDuration resp.Offset = 3600000000000) :
    Validate NewValidator resp = Validate NewValidator { resp with Offset := 0 } := by
  have h1 : ¬ AbsDuration resp.Offset > NewValidator.maxClockSkew := by
    rw [h]
    exact lt_irrefl _
  have h2 : ¬ AbsDuration (({ resp with Offset := 0 } : Response).Offset) >
      NewValidator.maxClockSkew := by
    norm_num [AbsDuration, NewValidator]
  unfold Validate
  rw [checkClockSkew_id _ _ _ h1, checkClockSkew_id _ _ _ h2]
  rfl

/-- Witness for the amended C9 at a concrete input. -/
theorem C9_validate_one_hour_witness :
    Validate NewValidator oneHourResponse =
      Validate NewValidator { oneHourResponse with Offset := 0 } :=
  C9_validate_one_hour oneHourResponse (by decide)

/-- Source function `calculateCoherence` (src/internal/collector/hybrid.go,
lines 164-195): piecewise score of the absolute divergence between the two
offsets in seconds.  `math.Exp` is the parameter `expFn`; the unused
config argument of the Go function is dropped. -/
def calculateCoherence (expFn : ℚ → ℚ) (ntpOffset kernelOffset : ℚ) : ℚ :=
  let divergence := |ntpOffset - kernelOffset|
  if divergence < 1 / 1000 then 1
  else if divergence < 5 / 1000 then
    1 - (divergence - 1 / 1000) / (5 / 1000 - 1 / 1000) * (1 / 10)
  else if divergence < 10 / 1000 then
    9 / 10 - (divergence - 5 / 1000) / (10 / 1000 - 5 / 1000) * (2 / 10)
  else if divergence < 50 / 1000 then
    7 / 10 - (divergence - 10 / 1000) / (50 / 1000 - 10 / 1000) * (2 / 10)
  else
    let score := 1 / 2 * expFn (-divergence * 5)
    if score < 0 then 0 else score

/-- Coherence scale as worded by the spec: 1 below 1 ms; linear from 1
down to 0.9 on [1 ms, 5 ms); linear from 0.9 down to 0.7 on [5 ms, 10 ms);
linear from 0.7 down to 0.5 on [10 ms, 50 ms); otherwise half the
exponential of -5d, clamped to [0, 1]. -/
def coherenceSpec (expFn : ℚ → ℚ) (ntpOffset kernelOffset : ℚ) : ℚ :=
  let d := |ntpOffset - kernelOffset|
  if d < 1 / 1000 then 1
  else if d < 5 / 1000 then
    1 + (d - 1 / 1000) * ((9 / 10 - 1) / (5 / 1000 - 1 / 1000))
  else if d < 10 / 1000 then
    9 / 10 + (d - 5 / 1000) * ((7 / 10 - 9 / 10) / (10 / 1000 - 5 / 1000))
  else if d < 50 / 1000 then
    7 / 10 + (d - 10 / 1000) * ((5 / 10 - 7 / 10) / (50 / 1000 - 10 / 1000))
  else
    min 1 (max 0 (1 / 2 * expFn (-5 * d)))

/-- C5: for all offsets, `calculateCoherence` agrees with the piecewise
reference scale of the spec (for any interpretation of the exponential
bounded above by 2, as the real exponential of a non-positive argument
is), and equal offsets give coherence exactly 1. -/
theorem C5_calculateCoherence_piecewise (expFn : ℚ → ℚ)
    (hexp : ∀ t : ℚ, expFn t ≤ 2) (a b x : ℚ) :
    calculateCoherence expFn a b = coherenceSpec expFn a b ∧
    calculateCoherence expFn x x = 1 := by
  constructor
  · unfold calculateCoherence coherenceSpec
    by_cases h1 : |a - b| < 1 / 1000
    · simp only [h1, if_true]
    · simp only [h1, if_false]
      by_cases h2 : |a - b| < 5 / 1000
      · simp only [h2, if_true]
        ring
      · simp only [h2, if_false]
        by_cases h3 : |a - b| < 10 / 1000
        · simp only [h3, if_true]
          ring
        · simp only [h3, if_false]
          by_cases h4 : |a - b| < 50 / 1000
          · simp only [h4, if_true]
            ring
          · simp only [h4, if_false]
            have harg : -|a - b| * 5 = -5 * |a - b| := by ring
            rw [harg]
            have hle : 1 / 2 * expFn (-5 * |a - b|) ≤ 1 := by
              have := hexp (-5 * |a - b|)
              linarith
            by_cases h5 : 1 / 2 * expFn (-5 * |a - b|) < 0
            · rw [if_pos h5, max_eq_left (le_of_lt h5), min_eq_right (by norm_num)]
            · rw [if_neg h5, max_eq_right (le_of_not_lt h5), min_eq_right hle]
  · unfold calculateCoherence
    simp

/-- Witness for C5 with the constant-1 exponential: a divergence of 8 ms
sits on the third linear segment, and equal offsets give exactly 1. -/
theorem C5_calculateCoherence_piecewise_witness :
    calculateCoherence (fun _ => 1) (8 / 1000) 0 =
      coherenceSpec (fun _ => 1) (8 / 1000) 0 ∧
    calculateCoherence (fun _ => 1) (5 / 1000) (5 / 1000) = 1 :=
  C5_calculateCoherence_piecewise (fun _ => 1) (fun _ => by norm_num)
    (8 / 1000) 0 (5 / 1000)

/-- AdaptiveSamplingConfig (src/internal/ntp/adaptive.go): sample counts,
drift threshold and maximum duration (nanoseconds). -/
structure AdaptiveSamplingConfig where
  DefaultSamples : ℤ
  HighDriftSamples : ℤ
  DriftThreshold : ℤ
  MaxDuration : ℤ
  ConfidenceLevel : ℚ
deriving DecidableEq

/-- Source method `AdaptiveSampler.Sample` (src/internal/ntp/adaptive.go,
lines 58-138).  The two `QueryMultiple` invocations are the parameters
`q1` and `q2` (responses plus optional error); `elapsed` is the wall-clock
time measured after the first batch.  The second component of the result
records the issued queries as (sample count, optional deadline) pairs. -/
def Sample (sqrtFn : ℚ → ℚ) (cfg : AdaptiveSamplingConfig)
    (q1 q2 : List Response × Option String) (elapsed : ℤ) :
    (List Response × Option String) × List (ℤ × Option ℤ) :=
  let calls1 : List (ℤ × Option ℤ) := [(cfg.DefaultSamples, none)]
  match q1 with
  | (_, some e) => (([], some e), calls1)
  | (responses, none) =>
    if responses = [] then ((responses, none), calls1)
    else
      let stats := CalculateStatistics sqrtFn responses cfg.DefaultSamples
      let absMedian := AbsDuration stats.MedianOffset
      if absMedian > cfg.DriftThreshold then
        if elapsed < cfg.MaxDuration then
          let additionalSamples := cfg.HighDriftSamples - cfg.DefaultSamples
          let remainingTime := cfg.MaxDuration - elapsed
          let calls := calls1 ++ [(additionalSamples, some remainingTime)]
          match q2 with
          | (extra, none) =>
            if extra ≠ [] then ((responses ++ extra, none), calls)
            else ((responses, none), calls)
          | (_, some _) => ((responses, none), calls)
        else ((responses, none), calls1)
      else ((responses, none), calls1)

/-- C6: when the first batch is non-empty with absolute median offset
above the drift threshold, the elapsed time is below the maximum
duration, and the second batch succeeds non-empty, `Sample` issues
exactly `HighDriftSamples - DefaultSamples` additional queries with the
remaining budget as deadline and returns the concatenation of the two
batches. -/
theorem C6_sample_adaptive (sqrtFn : ℚ → ℚ) (cfg : AdaptiveSamplingConfig)
    (rs extra : List Response) (elapsed : ℤ) (h1 : rs ≠ [])
    (h2 : AbsDuration (CalculateStatistics sqrtFn rs cfg.DefaultSamples).MedianOffset >
      cfg.DriftThreshold)
    (h3 : elapsed < cfg.MaxDuration) (h4 : extra ≠ []) :
    Sample sqrtFn cfg (rs, none) (extra, none) elapsed =
      ((rs ++ extra, none),
       [(cfg.DefaultSamples, none),
        (cfg.HighDriftSamples - cfg.DefaultSamples,
         some (cfg.MaxDuration - elapsed))]) := by
  unfold Sample
  simp only [h1, if_false, h2, if_true, h3, h4, ite_not]
  simp [h1, h2, h3, h4]

/-- Response with a clock offset of 80 ms. -/
def drift80Response : Response :=
  { Server := "drift.example", Offset := 80000000, RTT := 40000000,
    Stratum := 2, ReferenceTime := 1700000000000000000, RootDelay := 8000000,
    RootDispersion := 4000000, RootDistance := 8000000, Precision := 0,
    LeapIndicator := 0, Poll := 0, ValidateError := none, ReferenceID := 0,
    Time := 0, MinError := 0, KissCode := "" }

/-- Adaptive configuration of scenario 4: defaults 3, high drift 10,
threshold 50 ms, maximum duration 30 s. -/
def scenarioAdaptiveConfig : AdaptiveSamplingConfig :=
  { DefaultSamples := 3, HighDriftSamples := 10, DriftThreshold := 50000000,
    MaxDuration := 30000000000, ConfidenceLevel := 95 / 100 }

/-- Witness for C6, scenario 4 of the spec: an initial batch of 3 samples
with median offset 80 ms triggers 7 additional queries with the remaining
29 s as deadline, for 10 returned samples in total. -/
theorem C6_sample_adaptive_witness :
    Sample (fun q => q) scenarioAdaptiveConfig
        ([drift80Response, drift80Response, drift80Response], none)
        (List.replicate 7 drift80Response, none) 1000000000 =
      (([drift80Response, drift80Response, drift80Response] ++
          List.replicate 7 drift80Response, none),
       [(3, none), (7, some 29000000000)]) ∧
    ([drift80Response, drift80Response, drift80Response] ++
        List.replicate 7 drift80Response).length = 10 := by
  have hne : ([drift80Response, drift80Response, drift80Response] :
      List Response) ≠ [] := by simp
  have hmed : (CalculateStatistics (fun q => q)
      [drift80Response, drift80Response, drift80Response]
      scenarioAdaptiveConfig.DefaultSamples).MedianOffset = 80000000 := by
    unfold CalculateStatistics
    rw [if_neg hne]
    norm_num [median, sortFloat64, List.insertionSort, List.orderedInsert,
      secondsOf, durOfSeconds, ratTrunc, drift80Response]
    norm_num [show ¬ (([2 / 25, 2 / 25, 2 / 25] : List ℚ) = []) from by simp]
  have h := C6_sample_adaptive (fun q => q) scenarioAdaptiveConfig
    [drift80Response, drift80Response, drift80Response]
    (List.replicate 7 drift80Response) 1000000000
    hne
    (by
      rw [gt_iff_lt, hmed]
      norm_num [AbsDuration, scenarioAdaptiveConfig])
    (by norm_num [scenarioAdaptiveConfig])
    (by simp)
  rw [h]
  norm_num [scenarioAdaptiveConfig]

/-- Pool of NTP servers behind one DNS name (src/unnamed/part_014). -/
structure Pool where
  name : String
  strategy : String
  maxServers : ℕ
  fallback : String
  useWorkerPool : Bool
deriving DecidableEq

/-- PoolResponse, the aggregate of one pool query (src/unnamed/part_014). -/
structure PoolResponse where
  PoolName : String
  Servers : List String
  Responses : List Response
  ActiveServers : ℕ
  TotalServers : ℕ
  BestOffset : ℤ
  DNSResolution : ℤ
deriving DecidableEq

/-- Source method `Pool.Resolve` (src/unnamed/part_014, lines 66-104): DNS
resolution through the cache (its outcome is the parameter `dnsResult`),
fallback server on failure when configured, then truncation of the
resolved list to `maxServers`. -/
def Pool.Resolve (p : Pool) (dnsResult : Except String (List String))
    (elapsed : ℤ) : Except String (List String × ℤ) :=
  match dnsResult with
  | .error _ =>
    if p.fallback ≠ "" then .ok ([p.fallback], elapsed)
    else .error "failed to resolve pool"
  | .ok ips =>
    .ok ((if ips.length > p.maxServers then ips.take p.maxServers else ips),
      elapsed)

/-- Source method `Pool.selectServersByStrategy`: all servers for `all`
and `best_n` (and by default); a single wall-clock-selected server for
`round_robin`. -/
def selectServersByStrategy (p : Pool) (servers : List String) (nowUnix : ℤ) :
    List String :=
  if p.strategy = "all" then servers
  else if p.strategy = "round_robin" then
    if servers = [] then []
    else [servers.getD (nowUnix % (servers.length : ℤ)).toNat ""]
  else servers

/-- Source method `Pool.findBestOffset`: offset of smallest absolute
value, 0 for the empty list. -/
def findBestOffset (responses : List Response) : ℤ :=
  match responses with
  | [] => 0
  | r0 :: rest =>
    (rest.foldl
      (fun best r =>
        if AbsDuration r.Offset < AbsDuration best then r.Offset else best)
      r0.Offset)

/-- Sequential query loop of `Pool.Query`: failures are skipped, and the
`best_n` strategy stops once `maxServers` successes are gathered.
Cancellation between servers is elided (it exits with an error and is
outside every claim about successful queries). -/
def querySequential (p : Pool) (querier : String → Except String Response) :
    List String → List Response → ℕ → List Response × ℕ
  | [], acc, active => (acc, active)
  | s :: rest, acc, active =>
    match querier s with
    | .error _ => querySequential p querier rest acc active
    | .ok r =>
      if p.strategy = "best_n" ∧ p.maxServers ≤ active + 1 then
        (acc ++ [r], active + 1)
      else querySequential p querier rest (acc ++ [r]) (active + 1)

/-- Source method `Pool.Query` (src/unnamed/part_014, lines 107-187):
resolve, select by strategy, query through the worker pool (strategy
`all` with the pool enabled) or sequentially, then compute the best
offset.  `TotalServers` is set from the resolved (already truncated)
list. -/
def Pool.Query (p : Pool) (dnsResult : Except String (List String))
    (elapsed : ℤ) (querier : String → Except String Response)
    (querierMulti : String → ℤ → List Response × Option String)
    (delivered : String → Bool) (samples : ℤ) (nowUnix : ℤ) :
    Except String PoolResponse :=
  match p.Resolve dnsResult elapsed with
  | .error e => .error e
  | .ok (servers, dnsTime) =>
    let selected := selectServersByStrategy p servers nowUnix
    let pair :=
      if p.useWorkerPool ∧ p.strategy = "all" then
        match Execute false querierMulti delivered selected samples with
        | .error _ => ([], 0)
        | .ok results =>
          results.foldl
            (fun (acc : List Response × ℕ) pr =>
              match pr.2.Error, pr.2.Responses with
              | none, r :: _ => (acc.1 ++ [r], acc.2 + 1)
              | _, _ => acc)
            ([], 0)
      else querySequential p querier selected [] 0
    .ok { PoolName := p.name, Servers := servers, Responses := pair.1,
          ActiveServers := pair.2, TotalServers := servers.length,
          BestOffset := if pair.1 ≠ [] then findBestOffset pair.1 else 0,
          DNSResolution := dnsTime }

/-- Pool of the C7 counterexample: maxServers 2, no fallback. -/
def threePool : Pool :=
  { name := "pool.example", strategy := "best_n", maxServers := 2,
    fallback := "", useWorkerPool := false }

/-- Counterexample to C7: a pool name resolving to three addresses with
`maxServers = 2` reports `TotalServers = 2`, the post-truncation count,
not the claimed pre-filter count 3: `Resolve` truncates before `Query`
reads the length. -/
theorem C7_totalServers_counterexample :
    (Pool.Query threePool (Except.ok ["a", "b", "c"]) 5 (fun _ => Except.error "x")
        (fun _ _ => ([], none)) (fun _ => true) 1 0).map
      (fun r => r.TotalServers) = Except.ok 2 ∧ (2 : ℕ) ≠ 3 := by
  exact ⟨rfl, by decide⟩

/-- C7 amended: for every successful pool query, `TotalServers` equals
the length of the resolved list after truncation to `maxServers`, that
is `min(resolved count, maxServers)`; on the fallback path it is 1. -/
theorem C7_totalServers_post_truncation (p : Pool)
    (dnsResult : Except String (List String)) (elapsed : ℤ)
    (querier : String → Except String Response)
    (querierMulti : String → ℤ → List Response × Option String)
    (delivered : String → Bool) (samples nowUnix : ℤ) :
    (∀ ips resp,
      dnsResult = Except.ok ips →
      Pool.Query p dnsResult elapsed querier querierMulti delivered samples
        nowUnix = Except.ok resp →
      resp.TotalServers = min ips.length p.maxServers) ∧
    (∀ e resp,
      dnsResult = Except.error e → p.fallback ≠ "" →
      Pool.Query p dnsResult elapsed querier querierMulti delivered samples
        nowUnix = Except.ok resp →
      resp.TotalServers = 1) := by
  constructor
  · intro ips resp hdns hq
    subst hdns
    have hres : p.Resolve (Except.ok ips) elapsed =
        Except.ok ((if ips.length > p.maxServers then ips.take p.maxServers
          else ips), elapsed) := rfl
    rw [Pool.Query, hres] at hq
    have hts : resp.TotalServers =
        (if ips.length > p.maxServers then ips.take p.maxServers else ips).length := by
      cases hq
      rfl
    rw [hts]
    by_cases hlen : ips.length > p.maxServers
    · simp only [hlen, if_true, List.length_take]
      omega
    · simp only [hlen, if_false]
      omega
  · intro e resp hdns hfb hq
    subst hdns
    have hres : p.Resolve (Except.error e) elapsed =
        Except.ok ([p.fallback], elapsed) := by
      rw [Pool.Resolve]
      simp [hfb]
    rw [Pool.Query, hres] at hq
    cases hq
    rfl

/-- Witness for the amended C7: three resolved addresses truncated to
two, reported as TotalServers 2 = min 3 2. -/
theorem C7_totalServers_post_truncation_witness :
    Pool.Query threePool (Except.ok ["a", "b", "c"]) 5
        (fun _ => Except.error "x") (fun _ _ => ([], none)) (fun _ => true) 1 0 =
      Except.ok ⟨"pool.example", ["a", "b"], [], 0, 2, 0, 5⟩ ∧
    (2 : ℕ) = min (["a", "b", "c"] : List String).length threePool.maxServers := by
  have h2 : Pool.Query threePool (Except.ok ["a", "b", "c"]) 5
      (fun _ => Except.error "x") (fun _ _ => ([], none)) (fun _ => true) 1 0 =
      Except.ok ⟨"pool.example", ["a", "b"], [], 0, 2, 0, 5⟩ := rfl
  refine ⟨h2, ?_⟩
  exact (C7_totalServers_post_truncation threePool (Except.ok ["a", "b", "c"]) 5
    (fun _ => Except.error "x") (fun _ _ => ([], none)) (fun _ => true) 1 0).1
    ["a", "b", "c"] ⟨"pool.example", ["a", "b"], [], 0, 2, 0, 5⟩ rfl h2

/-- DNSCacheEntry, one cached host resolution
(src/internal/ntp/dnscache.go). -/
structure DNSCacheEntry where
  IPs : List String
  ExpiresAt : ℤ
  TTL : ℤ
  ErrorCount : ℕ
deriving DecidableEq

/-- DNSCache state (src/internal/ntp/dnscache.go): the host map and the
TTL bounds. -/
structure DNSCache where
  cache : List (String × DNSCacheEntry)
  minTTL : ℤ
  maxTTL : ℤ
deriving DecidableEq

/-- Source method `DNSCache.calculateAdaptiveTTL`: midpoint of the TTL
range for a fresh host, `minTTL` after errors, `maxTTL` after a clean
history. -/
def calculateAdaptiveTTL (c : DNSCache) (entryOpt : Option DNSCacheEntry) : ℤ :=
  match entryOpt with
  | none => (c.minTTL + c.maxTTL) / 2
  | some entry => if entry.ErrorCount > 0 then c.minTTL else c.maxTTL

/-- Resolution-and-update path of `DNSCache.Resolve`: on failure with a
previous entry, bump its error count and return the stale IPs; on
failure without one, propagate; on success, store the fresh entry with
the adaptive TTL and a reset error count. -/
def resolveAndUpdate (c : DNSCache) (hostname : String) (now : ℤ)
    (entryOpt : Option DNSCacheEntry)
    (resolver : Except String (List String)) :
    Except String (List String) × DNSCache :=
  match resolver with
  | .error e =>
    match entryOpt with
    | some entry =>
      let bumped := { entry with ErrorCount := entry.ErrorCount + 1 }
      (.ok entry.IPs, { c with cache := insertAssoc c.cache hostname bumped })
    | none => (.error e, c)
  | .ok ips =>
    let ttl := calculateAdaptiveTTL c entryOpt
    let fresh : DNSCacheEntry :=
      { IPs := ips, ExpiresAt := now + ttl, TTL := ttl, ErrorCount := 0 }
    (.ok ips, { c with cache := insertAssoc c.cache hostname fresh })

/-- Source method `DNSCache.Resolve` (src/internal/ntp/dnscache.go, lines
54-117): IP literals bypass the cache (`isIP` models `net.ParseIP`);
unexpired entries are returned directly; otherwise the resolver runs and
`resolveAndUpdate` applies the stale-on-error policy. -/
def DNSCache.Resolve (c : DNSCache) (isIP : Bool) (hostname : String)
    (now : ℤ) (resolver : Except String (List String)) :
    Except String (List String) × DNSCache :=
  if isIP then (.ok [hostname], c)
  else
    match lookupAssoc c.cache hostname with
    | some entry =>
      if now < entry.ExpiresAt then (.ok entry.IPs, c)
      else resolveAndUpdate c hostname now (some entry) resolver
    | none => resolveAndUpdate c hostname now none resolver

/-- C8: when DNS resolution fails for a non-literal hostname, a cached
entry (necessarily expired at this point) has its error count
incremented and its stale IPs are returned without an error; with no
cached entry the resolution error is propagated. -/
theorem C8_dnscache_stale_on_error (c : DNSCache) (hostname : String)
    (now : ℤ) (e : String) :
    (∀ entry, lookupAssoc c.cache hostname = some entry →
      ¬ now < entry.ExpiresAt →
      DNSCache.Resolve c false hostname now (Except.error e) =
        (Except.ok entry.IPs,
         { c with
           cache := insertAssoc c.cache hostname
             { entry with ErrorCount := entry.ErrorCount + 1 } })) ∧
    (lookupAssoc c.cache hostname = none →
      DNSCache.Resolve c false hostname now (Except.error e) =
        (Except.error e, c)) := by
  constructor
  · intro entry hent hexp
    rw [DNSCache.Resolve]
    simp only [Bool.false_eq_true, if_false, hent, hexp]
    rfl
  · intro hent
    rw [DNSCache.Resolve]
    simp only [Bool.false_eq_true, if_false, hent]
    rfl

/-- Cache holding one expired entry for host resolve.example. -/
def staleCache : DNSCache :=
  { cache := [("resolve.example",
      { IPs := ["192.0.2.7"], ExpiresAt := 100, TTL := 50, ErrorCount := 0 })],
    minTTL := 300000000000, maxTTL := 3600000000000 }

/-- Witness for C8: the expired entry of staleCache is served stale with
its error count bumped, and an unknown host propagates the error. -/
theorem C8_dnscache_stale_on_error_witness :
    DNSCache.Resolve staleCache false "resolve.example" 200
        (Except.error "dns down") =
      (Except.ok ["192.0.2.7"],
       { staleCache with
         cache := insertAssoc staleCache.cache "resolve.example"
           { IPs := ["192.0.2.7"], ExpiresAt := 100, TTL := 50,
             ErrorCount := 1 } }) ∧
    DNSCache.Resolve { staleCache with cache := [] } false "resolve.example"
        200 (Except.error "dns down") =
      (Except.error "dns down", { staleCache with cache := [] }) := by
  constructor
  · exact (C8_dnscache_stale_on_error staleCache "resolve.example" 200
      "dns down").1
      { IPs := ["192.0.2.7"], ExpiresAt := 100, TTL := 50, ErrorCount := 0 }
      rfl (by decide)
  · exact (C8_dnscache_stale_on_error { staleCache with cache := [] }
      "resolve.example" 200 "dns down").2 rfl

/-- Circuit breaker states (spec section 4.3). -/
inductive CBState
  | Closed
  | Open
  | HalfOpen
deriving DecidableEq

/-- Request counters of one circuit breaker (gobreaker Counts). -/
structure Counts where
  Requests : ℕ
  TotalSuccesses : ℕ
  TotalFailures : ℕ
  ConsecutiveSuccesses : ℕ
  ConsecutiveFailures : ℕ
deriving DecidableEq

/-- All-zero counters. -/
def zeroCounts : Counts := ⟨0, 0, 0, 0, 0⟩

/-- Circuit breaker configuration (src/internal/ntp/circuitbreaker.go,
`CircuitBreakerConfig`), with the failure threshold of the ReadyToTrip
closure made explicit. -/
structure CBConfig where
  MaxRequests : ℕ
  Interval : ℤ
  Timeout : ℤ
  FailureThreshold : ℚ

/-- Source closure `ReadyToTrip` built by
`NewCircuitBreakerConfigWithThreshold` (src/internal/ntp/
circuitbreaker.go, lines 55-65): at least 3 requests and a failure ratio
at or above the threshold. -/
def readyToTrip (threshold : ℚ) (c : Counts) : Bool :=
  decide (3 ≤ c.Requests) &&
    decide (threshold ≤ (c.TotalFailures : ℚ) / (c.Requests : ℚ))

/-- One per-target circuit breaker: state, counters, and the expiry
instant of the current state (interval end when Closed, reopening
deadline when Open). -/
structure CircuitBreaker where
  state : CBState
  counts : Counts
  expiry : ℤ
deriving DecidableEq

/-- Modelled from the spec: the gobreaker dependency (sony/gobreaker) is
not part of the repository source; a new breaker starts Closed with
zeroed counters and its first interval running (spec section 4.3: a
newly seen target starts Closed with zeroed counters). -/
def newCircuitBreaker (cfg : CBConfig) (now : ℤ) : CircuitBreaker :=
  { state := CBState.Closed, counts := zeroCounts, expiry := now + cfg.Interval }

/-- Modelled from the spec: state refresh before a request, for the
missing gobreaker source.  Open becomes HalfOpen once the timeout has
elapsed; in Closed the interval periodically resets the counters (spec
section 4.3). -/
def cbRefresh (cfg : CBConfig) (b : CircuitBreaker) (now : ℤ) :
    CircuitBreaker :=
  match b.state with
  | CBState.Closed =>
    if 0 < cfg.Interval ∧ b.expiry ≤ now then
      { b with counts := zeroCounts, expiry := now + cfg.Interval }
    else b
  | CBState.Open =>
    if b.expiry ≤ now then
      { state := CBState.HalfOpen, counts := zeroCounts, expiry := 0 }
    else b
  | CBState.HalfOpen => b

/-- Success bookkeeping on the counters. -/
def incSuccess (c : Counts) : Counts :=
  { c with
    TotalSuccesses := c.TotalSuccesses + 1,
    ConsecutiveSuccesses := c.ConsecutiveSuccesses + 1,
    ConsecutiveFailures := 0 }

/-- Failure bookkeeping on the counters. -/
def incFailure (c : Counts) : Counts :=
  { c with
    TotalFailures := c.TotalFailures + 1,
    ConsecutiveFailures := c.ConsecutiveFailures + 1,
    ConsecutiveSuccesses := 0 }

/-- Modelled from the spec: post-request transition on success, for the
missing gobreaker source.  In HalfOpen, enough consecutive successes
close the breaker (spec section 4.3). -/
def cbAfterSuccess (cfg : CBConfig) (b : CircuitBreaker) (now : ℤ) :
    CircuitBreaker :=
  match b.state with
  | CBState.Closed => { b with counts := incSuccess b.counts }
  | CBState.HalfOpen =>
    let counts := incSuccess b.counts
    if cfg.MaxRequests ≤ counts.ConsecutiveSuccesses then
      { state := CBState.Closed, counts := zeroCounts,
        expiry := now + cfg.Interval }
    else { b with counts := counts }
  | CBState.Open => b

/-- Modelled from the spec: post-request transition on failure, for the
missing gobreaker source.  In Closed, ReadyToTrip decides the trip to
Open for the configured timeout; any HalfOpen failure re-opens (spec
section 4.3). -/
def cbAfterFailure (cfg : CBConfig) (b : CircuitBreaker) (now : ℤ) :
    CircuitBreaker :=
  match b.state with
  | CBState.Closed =>
    let counts := incFailure b.counts
    if readyToTrip cfg.FailureThreshold counts then
      { state := CBState.Open, counts := zeroCounts,
        expiry := now + cfg.Timeout }
    else { b with counts := counts }
  | CBState.HalfOpen =>
    { state := CBState.Open, counts := zeroCounts, expiry := now + cfg.Timeout }
  | CBState.Open => b

/-- Outcome of one guarded request at the breaker level. -/
inductive CBOutcome (α : Type)
  | ok (a : α)
  | rejectedOpen
  | rejectedTooMany
  | wireFailed (e : String)
deriving DecidableEq

/-- Modelled from the spec: one guarded request through the breaker, for
the missing gobreaker source.  Open rejects immediately without invoking
the wrapped call; HalfOpen admits at most MaxRequests probes; otherwise
the wire call runs and the counters and state are updated.  The third
component records whether the wrapped call was invoked. -/
def cbExecute {α : Type} (cfg : CBConfig) (b : CircuitBreaker) (now : ℤ)
    (wire : Except String α) : CircuitBreaker × CBOutcome α × Bool :=
  let b1 := cbRefresh cfg b now
  match b1.state with
  | CBState.Open => (b1, CBOutcome.rejectedOpen, false)
  | CBState.HalfOpen =>
    if cfg.MaxRequests ≤ b1.counts.Requests then
      (b1, CBOutcome.rejectedTooMany, false)
    else
      let b2 := { b1 with counts := { b1.counts with Requests := b1.counts.Requests + 1 } }
      match wire with
      | .ok a => (cbAfterSuccess cfg b2 now, CBOutcome.ok a, true)
      | .error e => (cbAfterFailure cfg b2 now, CBOutcome.wireFailed e, true)
  | CBState.Closed =>
    let b2 := { b1 with counts := { b1.counts with Requests := b1.counts.Requests + 1 } }
    match wire with
    | .ok a => (cbAfterSuccess cfg b2 now, CBOutcome.ok a, true)
    | .error e => (cbAfterFailure cfg b2 now, CBOutcome.wireFailed e, true)

/-- Source method `CircuitBreakerClient.Query` (src/internal/ntp/
circuitbreaker.go, lines 117-134): run the query through the per-target
breaker and rename the open-state rejection to the circuit-open error. -/
def cbClientQuery (cfg : CBConfig) (server : String) (b : CircuitBreaker)
    (now : ℤ) (wire : Except String Response) :
    CircuitBreaker × Except String Response × Bool :=
  match cbExecute cfg b now wire with
  | (b2, CBOutcome.ok r, inv) => (b2, Except.ok r, inv)
  | (b2, CBOutcome.rejectedOpen, inv) =>
    (b2, Except.error ("circuit breaker open for " ++ server), inv)
  | (b2, CBOutcome.rejectedTooMany, inv) =>
    (b2, Except.error "too many requests", inv)
  | (b2, CBOutcome.wireFailed e, inv) => (b2, Except.error e, inv)

/-- Source method `CircuitBreakerClient.QueryMultiple` (src/internal/ntp/
circuitbreaker.go, lines 137-152), same wrapping around a multi-sample
wire call. -/
def cbClientQueryMultiple (cfg : CBConfig) (server : String)
    (b : CircuitBreaker) (now : ℤ) (wire : Except String (List Response)) :
    CircuitBreaker × Except String (List Response) × Bool :=
  match cbExecute cfg b now wire with
  | (b2, CBOutcome.ok rs, inv) => (b2, Except.ok rs, inv)
  | (b2, CBOutcome.rejectedOpen, inv) =>
    (b2, Except.error ("circuit breaker open for " ++ server), inv)
  | (b2, CBOutcome.rejectedTooMany, inv) =>
    (b2, Except.error "too many requests", inv)
  | (b2, CBOutcome.wireFailed e, inv) => (b2, Except.error e, inv)

/-- Breaker configuration of scenario 5: failure threshold 0.6, timeout
30 s, interval 60 s, 3 half-open probes. -/
def cfg36 : CBConfig :=
  { MaxRequests := 3, Interval := 60000000000, Timeout := 30000000000,
    FailureThreshold := 6 / 10 }

lemma cbExecute_open_rejects {α : Type} (cfg : CBConfig) (b : CircuitBreaker)
    (now : ℤ) (wire : Except String α) (hopen : b.state = CBState.Open)
    (htime : now < b.expiry) :
    cbExecute cfg b now wire = (b, CBOutcome.rejectedOpen, false) := by
  have href : cbRefresh cfg b now = b := by
    rw [cbRefresh]
    rcases b with ⟨st, cts, ex⟩
    simp only at hopen
    subst hopen
    simp only [not_le.mpr htime, if_false]
  rw [cbExecute, href, hopen]

/-- C3: while a target's breaker is Open and its timeout has not elapsed,
Query and QueryMultiple fail with the circuit-open error without
invoking the wrapped querier; moreover, under failure threshold 0.6 and
timeout 30 s, three consecutive failures trip a fresh breaker to Open
and a fourth attempt within the 30 s is rejected without a wire call. -/
theorem C3_circuit_open_rejects (cfg : CBConfig) (server : String)
    (b : CircuitBreaker) (now : ℤ) (wire : Except String Response)
    (wireMulti : Except String (List Response))
    (hopen : b.state = CBState.Open) (htime : now < b.expiry) :
    cbClientQuery cfg server b now wire =
      (b, Except.error ("circuit breaker open for " ++ server), false) ∧
    cbClientQueryMultiple cfg server b now wireMulti =
      (b, Except.error ("circuit breaker open for " ++ server), false) ∧
    cbClientQuery cfg36 "bad.example" (newCircuitBreaker cfg36 0) 0
        (Except.error "timeout") =
      (⟨CBState.Closed, ⟨1, 0, 1, 0, 1⟩, 60000000000⟩,
       Except.error "timeout", true) ∧
    cbClientQuery cfg36 "bad.example"
        ⟨CBState.Closed, ⟨1, 0, 1, 0, 1⟩, 60000000000⟩ 1000000000
        (Except.error "timeout") =
      (⟨CBState.Closed, ⟨2, 0, 2, 0, 2⟩, 60000000000⟩,
       Except.error "timeout", true) ∧
    cbClientQuery cfg36 "bad.example"
        ⟨CBState.Closed, ⟨2, 0, 2, 0, 2⟩, 60000000000⟩ 2000000000
        (Except.error "timeout") =
      (⟨CBState.Open, zeroCounts, 32000000000⟩, Except.error "timeout", true) ∧
    cbClientQuery cfg36 "bad.example" ⟨CBState.Open, zeroCounts, 32000000000⟩
        10000000000 (Except.error "unused") =
      (⟨CBState.Open, zeroCounts, 32000000000⟩,
       Except.error ("circuit breaker open for " ++ "bad.example"), false) := by
  refine ⟨?_, ?_, ?_, ?_, ?_, ?_⟩
  · rw [cbClientQuery, cbExecute_open_rejects cfg b now wire hopen htime]
  · rw [cbClientQueryMultiple, cbExecute_open_rejects cfg b now wireMulti hopen htime]
  · rw [cbClientQuery, cbExecute]
    norm_num [cbRefresh, newCircuitBreaker, cfg36, cbAfterFailure, incFailure,
      readyToTrip, zeroCounts]
  · rw [cbClientQuery, cbExecute]
    norm_num [cbRefresh, cfg36, cbAfterFailure, incFailure, readyToTrip,
      zeroCounts]
  · rw [cbClientQuery, cbExecute]
    norm_num [cbRefresh, cfg36, cbAfterFailure, incFailure, readyToTrip,
      zeroCounts]
  · rw [cbClientQuery,
      cbExecute_open_rejects cfg36 ⟨CBState.Open, zeroCounts, 32000000000⟩
        10000000000 (Except.error "unused") rfl (by decide)]

/-- Witness for C3 at a concrete Open breaker. -/
theorem C3_circuit_open_rejects_witness :
    cbClientQuery cfg36 "bad.example" ⟨CBState.Open, zeroCounts, 32000000000⟩
        5000000000 (Except.error "unused") =
      (⟨CBState.Open, zeroCounts, 32000000000⟩,
       Except.error ("circuit breaker open for " ++ "bad.example"), false) :=
  (C3_circuit_open_rejects cfg36 "bad.example"
    ⟨CBState.Open, zeroCounts, 32000000000⟩ 5000000000 (Except.error "unused")
    (Except.error "unused") rfl (by decide)).1

end NtpExporter
